import Mathlib

/-!
Verification of the single-loop PID controller (src/PIDController.cpp)
against its natural-language specification.

The controller state is embedded shallowly: every `double` member of the
C++ class `PIDController` becomes a rational number (ℚ models the real
arithmetic of the source; no floating-point rounding is claimed).  The two
stopwatch collaborators (`sample_timer`, `performance_timer`) are external
time sources, so their readings enter the model as per-call oracle inputs:
`samplingTime` models `sample_timer.elapsed().wall / 1e9` and `perfTime`
models `performance_timer.elapsed().wall / 1e9` (both reads of the
performance timer inside one `calc` call are modelled by the same value).
The diagnostic `std::cout` block is modelled by the `reported` flag of a
call's result.  `abs` in the settling test is mathematical absolute value,
as the spec describes it.
-/

namespace PIDController

/-- The data members of the C++ class `PIDController` (all `double`). -/
structure PIDState where
  kp : ℚ
  ki : ℚ
  kd : ℚ
  setpoint : ℚ
  lastSetpoint : ℚ
  lowerInputLimit : ℚ
  upperInputLimit : ℚ
  lowerOutputLimit : ℚ
  upperOutputLimit : ℚ
  integrator : ℚ
  peakTime : ℚ
  settlingTime : ℚ
  percentOvershoot : ℚ
deriving DecidableEq, Repr

/-- Placeholder for a default-initialised object before the constructor body
runs; every constructor of the source assigns the fields it initialises on
top of this (fields it leaves out stay indeterminate in C++ and are modelled
explicitly where that matters, see `copyCtor`). -/
def initState : PIDState :=
  ⟨0, 0, 0, 0, 0, 0, 0, 0, 0, 0, 0, 0, 0⟩

/-- Embeds `PIDController::limiter` (lines 166-178). -/
def limiter (value lowerLimit upperLimit : ℚ) : ℚ :=
  if lowerLimit = upperLimit then value
  else if value < lowerLimit then lowerLimit
  else if value > upperLimit then upperLimit
  else value

/-- Embeds `PIDController::setGains` (lines 113-117). -/
def setGains (s : PIDState) (kp ki kd : ℚ) : PIDState :=
  { s with kp := kp, ki := ki, kd := kd }

/-- Embeds `PIDController::setInputLimits` (lines 130-133). -/
def setInputLimits (s : PIDState) (lowerInputLimit upperInputLimit : ℚ) : PIDState :=
  { s with lowerInputLimit := lowerInputLimit, upperInputLimit := upperInputLimit }

/-- Embeds `PIDController::setOutputLimits` (lines 146-149). -/
def setOutputLimits (s : PIDState) (lowerOutputLimit upperOutputLimit : ℚ) : PIDState :=
  { s with lowerOutputLimit := lowerOutputLimit, upperOutputLimit := upperOutputLimit }

/-- Embeds `PIDController::targetSetpoint` (lines 93-100); the two
`timer.start()` calls act only on the external stopwatches. -/
def targetSetpoint (s : PIDState) (setpoint : ℚ) : PIDState :=
  { s with setpoint := limiter setpoint s.lowerInputLimit s.upperInputLimit,
           peakTime := -1, settlingTime := -1, percentOvershoot := 0 }

/-- Embeds `PIDController::reset` (lines 190-199); the two `timer.stop()`
calls act only on the external stopwatches. -/
def reset (s : PIDState) : PIDState :=
  { s with setpoint := 0, lastSetpoint := 0, integrator := 0,
           peakTime := -1, settlingTime := -1, percentOvershoot := 0 }

/-- Embeds `PIDController::hasSettled` (lines 212-220). -/
def hasSettled (s : PIDState) : Bool :=
  if s.settlingTime ≠ -1 then true else false

/-- Embeds the accessor `PIDController::getSetpoint` (lines 62-64). -/
def getSetpoint (s : PIDState) : ℚ := s.setpoint

/-- Embeds the accessor `PIDController::getKp` (lines 66-68). -/
def getKp (s : PIDState) : ℚ := s.kp

/-- Embeds the accessor `PIDController::getKi` (lines 70-72). -/
def getKi (s : PIDState) : ℚ := s.ki

/-- Embeds the accessor `PIDController::getKd` (lines 74-76). -/
def getKd (s : PIDState) : ℚ := s.kd

/-- Embeds the default constructor `PIDController::PIDController()`
(lines 12-17). -/
def defaultCtor : PIDState :=
  reset (setOutputLimits (setInputLimits (setGains initState 0 0 0) (-1) (-1)) (-1) (-1))

/-- Embeds the full constructor
`PIDController(kp, ki, kd, lowerIn, upperIn, lowerOut, upperOut)`
(lines 35-40). -/
def fullCtor (kp ki kd lowerIn upperIn lowerOut upperOut : ℚ) : PIDState :=
  reset (setOutputLimits (setInputLimits (setGains initState kp ki kd) lowerIn upperIn)
    lowerOut upperOut)

/-- Embeds the copy constructor `PIDController::PIDController(const
PIDController&)` (lines 43-52), exactly as written: line 46 passes
`orig.lowerInputLimit` as the second argument of `setOutputLimits`, and the
body never assigns `setpoint`, which therefore keeps its indeterminate
initial value, modelled by the explicit `junkSetpoint` parameter. -/
def copyCtor (junkSetpoint : ℚ) (orig : PIDState) : PIDState :=
  let u : PIDState := { initState with setpoint := junkSetpoint }
  let s := setGains u orig.kp orig.ki orig.kd
  let s := setInputLimits s orig.lowerInputLimit orig.upperInputLimit
  let s := setOutputLimits s orig.lowerOutputLimit orig.lowerInputLimit
  { s with integrator := orig.integrator, lastSetpoint := orig.lastSetpoint,
           peakTime := orig.peakTime, settlingTime := orig.settlingTime,
           percentOvershoot := orig.percentOvershoot }

/-- The outcome of one `PIDController::calc` call: the updated member state,
the returned control variable, and whether the settling branch fired (the
branch that writes the one-time diagnostic report to `std::cout`). -/
structure CalcResult where
  state : PIDState
  output : ℚ
  reported : Bool
deriving DecidableEq, Repr

/-- Embeds `PIDController::calc` (lines 235-267).  `processVariable` is the
argument; `samplingTime` is the stopped sample-timer reading of line 255 and
`perfTime` the performance-timer reading (lines 243 and 248). -/
def calcOutput (s : PIDState) (processVariable samplingTime perfTime : ℚ) : CalcResult :=
  let percent := processVariable / s.setpoint - 1
  let s1 := if percent > s.percentOvershoot ∧ percent > 0 then
      { s with percentOvershoot := processVariable / s.setpoint, peakTime := perfTime }
    else s
  let hit := decide (|percent| < 0.05 ∧ s1.settlingTime = -1)
  let s2 := if hit then { s1 with settlingTime := perfTime } else s1
  let error := s.setpoint - processVariable
  let differentiator := (s.setpoint - s.lastSetpoint) / samplingTime
  let integrator := limiter (s.integrator + error * samplingTime)
      s.lowerOutputLimit s.upperOutputLimit
  let controlVariable := limiter (s.kp * error + s.ki * integrator - s.kd * differentiator)
      s.lowerOutputLimit s.upperOutputLimit
  { state := { s2 with integrator := integrator, lastSetpoint := s.setpoint },
    output := controlVariable,
    reported := hit }

/-- One oracle input per `calc` call: the measured process variable and the
two stopwatch readings for that call. -/
structure CalcInput where
  processVariable : ℚ
  samplingTime : ℚ
  perfTime : ℚ
deriving DecidableEq, Repr

/-- The sequence of outcomes of consecutive `calc` calls, threading the
member state from each call into the next. -/
def calcTrace : PIDState → List CalcInput → List CalcResult
  | _, [] => []
  | s, i :: is =>
    let r := calcOutput s i.processVariable i.samplingTime i.perfTime
    r :: calcTrace r.state is

/-- The member state left behind by a sequence of consecutive `calc` calls. -/
def runCalc : PIDState → List CalcInput → PIDState
  | s, [] => s
  | s, i :: is => runCalc (calcOutput s i.processVariable i.samplingTime i.perfTime).state is

/-! Helper lemmas about the limiter and about one `calc` step. -/

theorem limiter_mem (x lo hi : ℚ) (h : lo < hi) :
    lo ≤ limiter x lo hi ∧ limiter x lo hi ≤ hi := by
  unfold limiter
  split_ifs with h1 h2 h3
  · exact absurd h1 h.ne
  · exact ⟨le_rfl, h.le⟩
  · exact ⟨h.le, le_rfl⟩
  · exact ⟨not_lt.mp h2, not_lt.mp h3⟩

theorem limiter_eq_self (x lo hi : ℚ) (hx : lo ≤ x) (hx' : x ≤ hi) :
    limiter x lo hi = x := by
  unfold limiter
  split_ifs with h1 h2 h3
  · rfl
  · linarith
  · linarith
  · rfl

theorem hasSettled_iff (s : PIDState) : hasSettled s = true ↔ s.settlingTime ≠ -1 := by
  simp [hasSettled]

theorem calcOutput_clamped (s : PIDState) (pv dt pt : ℚ) :
    (calcOutput s pv dt pt).state.integrator =
      limiter (s.integrator + (s.setpoint - pv) * dt) s.lowerOutputLimit s.upperOutputLimit ∧
    (calcOutput s pv dt pt).output =
      limiter (s.kp * (s.setpoint - pv) +
          s.ki * limiter (s.integrator + (s.setpoint - pv) * dt)
            s.lowerOutputLimit s.upperOutputLimit -
          s.kd * ((s.setpoint - s.lastSetpoint) / dt))
        s.lowerOutputLimit s.upperOutputLimit := by
  exact ⟨rfl, rfl⟩

theorem calcOutput_config (s : PIDState) (pv dt pt : ℚ) :
    (calcOutput s pv dt pt).state.kp = s.kp ∧
    (calcOutput s pv dt pt).state.ki = s.ki ∧
    (calcOutput s pv dt pt).state.kd = s.kd ∧
    (calcOutput s pv dt pt).state.setpoint = s.setpoint ∧
    (calcOutput s pv dt pt).state.lowerInputLimit = s.lowerInputLimit ∧
    (calcOutput s pv dt pt).state.upperInputLimit = s.upperInputLimit ∧
    (calcOutput s pv dt pt).state.lowerOutputLimit = s.lowerOutputLimit ∧
    (calcOutput s pv dt pt).state.upperOutputLimit = s.upperOutputLimit := by
  simp only [calcOutput]
  split_ifs <;> exact ⟨rfl, rfl, rfl, rfl, rfl, rfl, rfl, rfl⟩

theorem calcOutput_settled_persist (s : PIDState) (pv dt pt : ℚ)
    (h : s.settlingTime ≠ -1) :
    (calcOutput s pv dt pt).state.settlingTime = s.settlingTime ∧
    (calcOutput s pv dt pt).reported = false := by
  simp only [calcOutput]
  split_ifs with h1 h2 h2 <;>
    simp_all [decide_eq_true_eq]

theorem calcOutput_not_in_band (s : PIDState) (pv dt pt : ℚ)
    (hband : ¬ |pv / s.setpoint - 1| < 0.05) :
    (calcOutput s pv dt pt).state.settlingTime = s.settlingTime ∧
    (calcOutput s pv dt pt).reported = false := by
  simp only [calcOutput]
  split_ifs with h1 h2 h2
  · exact absurd (of_decide_eq_true h2).1 hband
  · exact ⟨rfl, by simp_all⟩
  · exact absurd (of_decide_eq_true h2).1 hband
  · exact ⟨rfl, by simp_all⟩

theorem calcOutput_settles (s : PIDState) (pv dt pt : ℚ)
    (hband : |pv / s.setpoint - 1| < 0.05) (hs : s.settlingTime = -1) :
    (calcOutput s pv dt pt).state.settlingTime = pt ∧
    (calcOutput s pv dt pt).reported = true := by
  simp only [calcOutput]
  split_ifs with h1 h2 h2 <;>
    simp_all [decide_eq_true_eq]

theorem calcTrace_settled_persist :
    ∀ (inputs : List CalcInput) (s : PIDState), s.settlingTime ≠ -1 →
      ∀ r ∈ calcTrace s inputs,
        r.state.settlingTime = s.settlingTime ∧ r.reported = false := by
  intro inputs
  induction inputs with
  | nil => intro s h r hr; simp [calcTrace] at hr
  | cons i is ih =>
    intro s h r hr
    simp only [calcTrace, List.mem_cons] at hr
    have hstep := calcOutput_settled_persist s i.processVariable i.samplingTime i.perfTime h
    rcases hr with rfl | hr
    · exact hstep
    · have htail := ih _ (hstep.1 ▸ h) r hr
      exact ⟨htail.1.trans hstep.1, htail.2⟩

theorem calcTrace_output_bounded :
    ∀ (inputs : List CalcInput) (s : PIDState),
      s.lowerOutputLimit < s.upperOutputLimit →
      ∀ r ∈ calcTrace s inputs,
        s.lowerOutputLimit ≤ r.state.integrator ∧ r.state.integrator ≤ s.upperOutputLimit ∧
        s.lowerOutputLimit ≤ r.output ∧ r.output ≤ s.upperOutputLimit := by
  intro inputs
  induction inputs with
  | nil => intro s h r hr; simp [calcTrace] at hr
  | cons i is ih =>
    intro s h r hr
    simp only [calcTrace, List.mem_cons] at hr
    have hcl := calcOutput_clamped s i.processVariable i.samplingTime i.perfTime
    have hcfg := calcOutput_config s i.processVariable i.samplingTime i.perfTime
    rcases hr with rfl | hr
    · refine ⟨?_, ?_, ?_, ?_⟩
      · exact hcl.1 ▸ (limiter_mem _ _ _ h).1
      · exact hcl.1 ▸ (limiter_mem _ _ _ h).2
      · exact hcl.2 ▸ (limiter_mem _ _ _ h).1
      · exact hcl.2 ▸ (limiter_mem _ _ _ h).2
    · have hlo := hcfg.2.2.2.2.2.2.1
      have hhi := hcfg.2.2.2.2.2.2.2
      have htail := ih _ (by rw [hlo, hhi]; exact h) r hr
      rw [hlo, hhi] at htail
      exact htail

/-! The claims. -/

/-- C1: against the claim, `percentOvershoot` is not the running maximum of the
ratio `processVariable/setpoint` over the overshooting samples.  With setpoint
10 and process variables 11, 13, 12, 14 (percent sequence 0.1, 0.3, 0.2, 0.4),
the code updates the backing ratio only at step 1: the branch guard compares
the new `percent` (ratio − 1) against the stored ratio, so after storing 11/10
at step 1 no later percent below 1 can fire it, and the value stays 11/10
instead of becoming 13/10 at step 2 and 14/10 at step 4. -/
theorem overshoot_not_running_max :
    ((calcTrace (targetSetpoint defaultCtor 10)
        [⟨11, 1, 1⟩, ⟨13, 1, 2⟩, ⟨12, 1, 3⟩, ⟨14, 1, 4⟩]).map
      (fun r => r.state.percentOvershoot)) = [11/10, 11/10, 11/10, 11/10] ∧
    (11 / 10 : ℚ) ≠ 13 / 10 ∧ (11 / 10 : ℚ) ≠ 14 / 10 := by
  norm_num [calcTrace, calcOutput, targetSetpoint, defaultCtor, reset, setGains,
    setInputLimits, setOutputLimits, initState, limiter, abs_lt]

/-- C2: against the claim, the copy constructor does not copy
`upperOutputLimit` from the original: line 46 passes `orig.lowerInputLimit`
as the upper output limit.  For an original built with input limits (2, 8)
and output limits (−10, 10), the copy's output limits come out as (−10, 2). -/
theorem copy_swaps_upper_output_limit :
    (fullCtor 1 2 3 2 8 (-10) 10).upperOutputLimit = 10 ∧
    (fullCtor 1 2 3 2 8 (-10) 10).lowerInputLimit = 2 ∧
    (copyCtor 0 (fullCtor 1 2 3 2 8 (-10) 10)).lowerOutputLimit = -10 ∧
    (copyCtor 0 (fullCtor 1 2 3 2 8 (-10) 10)).upperOutputLimit = 2 ∧
    (copyCtor 0 (fullCtor 1 2 3 2 8 (-10) 10)).upperOutputLimit ≠
      (fullCtor 1 2 3 2 8 (-10) 10).upperOutputLimit := by
  refine ⟨rfl, rfl, rfl, rfl, ?_⟩
  norm_num [copyCtor, fullCtor, reset, setGains, setInputLimits, setOutputLimits, initState]

/-- C3: after `setOutputLimits(-10, 10)`, for every sequence of `calc` calls
(any process variables, with the claim's side conditions of a nonzero setpoint
and positive sampling intervals) every returned control output and the stored
integrator after every call lie in [−10, 10]: both are the result of the
limiter with bounds −10 < 10, and `calc` never changes the output limits. -/
theorem anti_windup_bounded (s : PIDState) (inputs : List CalcInput)
    (hsp : s.setpoint ≠ 0) (hdt : ∀ i ∈ inputs, 0 < i.samplingTime) :
    ∀ r ∈ calcTrace (setOutputLimits s (-10) 10) inputs,
      -10 ≤ r.state.integrator ∧ r.state.integrator ≤ 10 ∧
      -10 ≤ r.output ∧ r.output ≤ 10 := by
  intro r hr
  have h := calcTrace_output_bounded inputs (setOutputLimits s (-10) 10)
    (by norm_num [setOutputLimits]) r hr
  simpa [setOutputLimits] using h

/-- Witness for C3: a controller targeting setpoint 100 with output limits
(−10, 10), fed a far-off process variable 500, keeps the integrator and the
output inside [−10, 10]. -/
theorem anti_windup_bounded_witness :
    (targetSetpoint defaultCtor 100).setpoint ≠ 0 ∧
    (-10 ≤ (calcOutput (setOutputLimits (targetSetpoint defaultCtor 100) (-10) 10)
        500 1 1).state.integrator ∧
      (calcOutput (setOutputLimits (targetSetpoint defaultCtor 100) (-10) 10)
        500 1 1).state.integrator ≤ 10 ∧
      -10 ≤ (calcOutput (setOutputLimits (targetSetpoint defaultCtor 100) (-10) 10)
        500 1 1).output ∧
      (calcOutput (setOutputLimits (targetSetpoint defaultCtor 100) (-10) 10)
        500 1 1).output ≤ 10) :=
  ⟨by norm_num [targetSetpoint, defaultCtor, reset, setGains, setInputLimits,
      setOutputLimits, initState, limiter],
   anti_windup_bounded (targetSetpoint defaultCtor 100) [⟨500, 1, 1⟩]
     (by norm_num [targetSetpoint, defaultCtor, reset, setGains, setInputLimits,
        setOutputLimits, initState, limiter])
     (by intro i hi; rw [List.mem_singleton] at hi; subst hi; norm_num)
     _ (by simp [calcTrace])⟩

/-- C4 counterexample: with setpoint 100, the process variable 95 lies in the
claimed closed band [95, 105], yet `|95/100 − 1| = 0.05` fails the strict
`< 0.05` settling test of line 245, so a run whose third call holds the
process variable at 95 never settles and never reports. -/
theorem settling_boundary_not_detected :
    ((95:ℚ) ≤ 95 ∧ (95:ℚ) ≤ 105) ∧
    ((calcTrace (targetSetpoint defaultCtor 100) [⟨200, 1, 1⟩, ⟨200, 1, 2⟩, ⟨95, 1, 3⟩]).map
        (fun r => (hasSettled r.state, r.reported)))
      = [(false, false), (false, false), (false, false)] := by
  norm_num [calcTrace, calcOutput, hasSettled, targetSetpoint, defaultCtor, reset,
    setGains, setInputLimits, setOutputLimits, initState, limiter, abs_lt]

/-- C4 (amended): after `setSetpoint(100)` (with input limits passing 100
through), two calls whose process variable is outside the ±5 % settling band
followed by a call whose process variable lies strictly inside (95, 105)
(with a nonnegative performance-timer reading) leave `hasSettled` false for
calls 1 and 2, true from call 3 onward, and the diagnostic report fires
exactly once, at call 3; the settled state persists over every later call of
the episode. -/
theorem settling_single_shot (s : PIDState) (i1 i2 i3 : CalcInput)
    (rest : List CalcInput) (r1 r2 r3 : CalcResult)
    (hclamp : limiter 100 s.lowerInputLimit s.upperInputLimit = 100)
    (h1 : ¬ |i1.processVariable / 100 - 1| < 0.05)
    (h2 : ¬ |i2.processVariable / 100 - 1| < 0.05)
    (h3 : 95 < i3.processVariable) (h3' : i3.processVariable < 105)
    (hpt : 0 ≤ i3.perfTime)
    (hrest : ∀ i ∈ rest, 95 < i.processVariable ∧ i.processVariable < 105)
    (e1 : r1 = calcOutput (targetSetpoint s 100)
      i1.processVariable i1.samplingTime i1.perfTime)
    (e2 : r2 = calcOutput r1.state i2.processVariable i2.samplingTime i2.perfTime)
    (e3 : r3 = calcOutput r2.state i3.processVariable i3.samplingTime i3.perfTime) :
    (hasSettled r1.state = false ∧ r1.reported = false) ∧
    (hasSettled r2.state = false ∧ r2.reported = false) ∧
    (hasSettled r3.state = true ∧ r3.reported = true) ∧
    ∀ r ∈ calcTrace r3.state rest, hasSettled r.state = true ∧ r.reported = false := by
  have E0sp : (targetSetpoint s 100).setpoint = 100 := hclamp
  have E0st : (targetSetpoint s 100).settlingTime = -1 := rfl
  have C1 := calcOutput_not_in_band (targetSetpoint s 100)
    i1.processVariable i1.samplingTime i1.perfTime (by rw [E0sp]; exact h1)
  rw [← e1] at C1
  have E1sp : r1.state.setpoint = 100 := by
    have := (calcOutput_config (targetSetpoint s 100)
      i1.processVariable i1.samplingTime i1.perfTime).2.2.2.1
    rw [← e1] at this
    exact this.trans E0sp
  have E1st : r1.state.settlingTime = -1 := C1.1.trans E0st
  have C2 := calcOutput_not_in_band r1.state
    i2.processVariable i2.samplingTime i2.perfTime (by rw [E1sp]; exact h2)
  rw [← e2] at C2
  have E2sp : r2.state.setpoint = 100 := by
    have := (calcOutput_config r1.state
      i2.processVariable i2.samplingTime i2.perfTime).2.2.2.1
    rw [← e2] at this
    exact this.trans E1sp
  have E2st : r2.state.settlingTime = -1 := C2.1.trans E1st
  have hband : |i3.processVariable / 100 - 1| < 0.05 := by
    rw [abs_lt]
    constructor <;> [linarith; linarith]
  have C3 := calcOutput_settles r2.state
    i3.processVariable i3.samplingTime i3.perfTime (by rw [E2sp]; exact hband) E2st
  rw [← e3] at C3
  have E3ne : r3.state.settlingTime ≠ -1 := by
    rw [C3.1]
    intro h
    rw [h] at hpt
    norm_num at hpt
  refine ⟨⟨?_, C1.2⟩, ⟨?_, C2.2⟩, ⟨?_, C3.2⟩, ?_⟩
  · simp [hasSettled, E1st]
  · simp [hasSettled, E2st]
  · simp [hasSettled, E3ne]
  · intro r hr
    have hper := calcTrace_settled_persist rest r3.state E3ne r hr
    refine ⟨?_, hper.2⟩
    have : r.state.settlingTime ≠ -1 := by
      rw [hper.1]
      exact E3ne
    simp [hasSettled, this]

/-- Witness for C4 (amended): concrete run with setpoint 100, process
variables 200, 200 (outside the band), then 100 (strictly inside) and a
fourth call at 104; the controller settles exactly at call 3 with the single
report, and stays settled at call 4. -/
theorem settling_single_shot_witness :
    ((95:ℚ) < 100 ∧ (100:ℚ) < 105) ∧
    ((hasSettled (calcOutput (targetSetpoint defaultCtor 100) 200 1 1).state = false ∧
        (calcOutput (targetSetpoint defaultCtor 100) 200 1 1).reported = false) ∧
      (hasSettled (calcOutput
            (calcOutput (targetSetpoint defaultCtor 100) 200 1 1).state
            200 1 2).state = false ∧
        (calcOutput (calcOutput (targetSetpoint defaultCtor 100) 200 1 1).state
            200 1 2).reported = false) ∧
      (hasSettled (calcOutput
            (calcOutput (calcOutput (targetSetpoint defaultCtor 100) 200 1 1).state
              200 1 2).state 100 1 3).state = true ∧
        (calcOutput
            (calcOutput (calcOutput (targetSetpoint defaultCtor 100) 200 1 1).state
              200 1 2).state 100 1 3).reported = true) ∧
      ∀ r ∈ calcTrace (calcOutput
            (calcOutput (calcOutput (targetSetpoint defaultCtor 100) 200 1 1).state
              200 1 2).state 100 1 3).state [⟨104, 1, 4⟩],
        hasSettled r.state = true ∧ r.reported = false) :=
  ⟨by norm_num,
   settling_single_shot defaultCtor ⟨200, 1, 1⟩ ⟨200, 1, 2⟩ ⟨100, 1, 3⟩ [⟨104, 1, 4⟩]
     (calcOutput (targetSetpoint defaultCtor 100) 200 1 1)
     (calcOutput (calcOutput (targetSetpoint defaultCtor 100) 200 1 1).state 200 1 2)
     (calcOutput
       (calcOutput (calcOutput (targetSetpoint defaultCtor 100) 200 1 1).state
         200 1 2).state 100 1 3)
     (by norm_num [defaultCtor, reset, setGains, setInputLimits, setOutputLimits,
        initState, limiter])
     (by rw [abs_lt]; norm_num)
     (by rw [abs_lt]; norm_num)
     (by norm_num) (by norm_num) (by norm_num)
     (by intro i hi; rw [List.mem_singleton] at hi; subst hi; norm_num)
     rfl rfl rfl⟩

/-- C5: `targetSetpoint` stores its argument clamped by the limiter with the
input limits; in particular after `setInputLimits(2, 8)`, targeting 15 stores
8 and targeting −3 stores 2. -/
theorem targetSetpoint_clamps (s : PIDState) (t : ℚ) :
    (targetSetpoint s t).setpoint = limiter t s.lowerInputLimit s.upperInputLimit ∧
    (targetSetpoint (setInputLimits s 2 8) 15).setpoint = 8 ∧
    (targetSetpoint (setInputLimits s 2 8) (-3)).setpoint = 2 := by
  refine ⟨rfl, ?_, ?_⟩ <;> norm_num [targetSetpoint, setInputLimits, limiter]

/-- C6: the limiter's equal-bounds sentinel disables clamping:
`limiter(x, c, c) = x` for every value `x` and every bound `c`. -/
theorem limiter_disable_sentinel (x c : ℚ) : limiter x c c = x := by
  simp [limiter]

/-- C7: for `lo < hi` the limiter's result lies in [lo, hi] and equals `x`
whenever `x` lies in [lo, hi]; consequently, for `lo ≤ hi` the limiter is
idempotent. -/
theorem limiter_bounds_idempotent (x lo hi : ℚ) :
    (lo < hi → lo ≤ limiter x lo hi ∧ limiter x lo hi ≤ hi ∧
      (lo ≤ x → x ≤ hi → limiter x lo hi = x)) ∧
    (lo ≤ hi → limiter (limiter x lo hi) lo hi = limiter x lo hi) := by
  constructor
  · intro h
    exact ⟨(limiter_mem x lo hi h).1, (limiter_mem x lo hi h).2,
      fun hx hx' => limiter_eq_self x lo hi hx hx'⟩
  · intro h
    rcases eq_or_lt_of_le h with heq | hlt
    · subst heq; simp [limiter]
    · exact limiter_eq_self _ lo hi (limiter_mem x lo hi hlt).1 (limiter_mem x lo hi hlt).2

/-- Witness for C7 at `x = 15`, `lo = 0`, `hi = 10`. -/
theorem limiter_bounds_idempotent_witness :
    ((0:ℚ) ≤ limiter 15 0 10 ∧ limiter 15 0 10 ≤ 10 ∧
      ((0:ℚ) ≤ 15 → (15:ℚ) ≤ 10 → limiter 15 0 10 = 15)) ∧
    limiter (limiter 15 0 10) 0 10 = limiter 15 0 10 :=
  ⟨(limiter_bounds_idempotent 15 0 10).1 (by norm_num),
   (limiter_bounds_idempotent 15 0 10).2 (by norm_num)⟩

/-- C8: `reset` returns the episode state to its zero/sentinel values
(setpoint, lastSetpoint and integrator 0; peakTime and settlingTime −1;
percentOvershoot 0; `hasSettled` false) and leaves the gains and all four
input/output limits untouched. -/
theorem reset_clears_episode_not_config (s : PIDState) :
    (reset s).setpoint = 0 ∧ (reset s).lastSetpoint = 0 ∧ (reset s).integrator = 0 ∧
    (reset s).peakTime = -1 ∧ (reset s).settlingTime = -1 ∧
    (reset s).percentOvershoot = 0 ∧ hasSettled (reset s) = false ∧
    getKp (reset s) = getKp s ∧ getKi (reset s) = getKi s ∧ getKd (reset s) = getKd s ∧
    (reset s).lowerInputLimit = s.lowerInputLimit ∧
    (reset s).upperInputLimit = s.upperInputLimit ∧
    (reset s).lowerOutputLimit = s.lowerOutputLimit ∧
    (reset s).upperOutputLimit = s.upperOutputLimit := by
  simp [reset, hasSettled, getKp, getKi, getKd]

/-- C9: the copy constructor never assigns `setpoint`, so the copy's stored
setpoint is whatever indeterminate value the new object started with (the
`junkSetpoint` parameter of the model), independent of the original; in
particular a copy of a controller targeting 5 can report setpoint 0. -/
theorem copy_setpoint_not_copied (junk : ℚ) (orig : PIDState) :
    getSetpoint (copyCtor junk orig) = junk ∧
    getSetpoint (copyCtor 0 (targetSetpoint (fullCtor 1 2 3 0 50 (-10) 10) 5)) ≠
      getSetpoint (targetSetpoint (fullCtor 1 2 3 0 50 (-10) 10) 5) := by
  refine ⟨rfl, ?_⟩
  norm_num [getSetpoint, copyCtor, targetSetpoint, fullCtor, reset, setGains,
    setInputLimits, setOutputLimits, initState, limiter]

/-- C10: the overshoot-tracking branch of `calc` ignores `settlingTime`.
After targeting 100 and settling on the first call (process variable 100),
a later call with process variable 300 still updates `percentOvershoot`
(0 to 3) and `peakTime` (−1 to 5), after the one-time report has gone out. -/
theorem overshoot_updates_after_settling :
    ((calcTrace (targetSetpoint defaultCtor 100) [⟨100, 1, 1⟩, ⟨300, 1, 5⟩]).map
        (fun r => (hasSettled r.state, r.state.percentOvershoot, r.state.peakTime))) =
      [(true, 0, -1), (true, 3, 5)] := by
  norm_num [calcTrace, calcOutput, hasSettled, targetSetpoint, defaultCtor, reset,
    setGains, setInputLimits, setOutputLimits, initState, limiter, abs_lt]

end PIDController
